import Mathlib

/-!
Verification of the layer-composition and rendering-lifecycle engine of the
Vantage map view (`src/components/map/MapView.tsx`).

The embedding models:
* the analytical result bundle (`AgentResults`) with optional per-domain payloads,
* the layer toggle state and the composed, ordered descriptor list (`layers`,
  from the `useMemo` block at MapView.tsx:109-179),
* the readiness gate (`ready` state at MapView.tsx:55-77),
* the pulsing animation scalar (MapView.tsx:80-91), with exact binary64
  (IEEE 754 double) rounding modelled over the rationals,
* the interaction resolution (`onClick` at MapView.tsx:100-107 and
  `getTooltip` at MapView.tsx:192-194).

Domain payloads are opaque to the engine (the spec's stated non-goal is any
interpretation beyond presence checks), so each payload type is modelled as an
opaque token with decidable equality.
-/

namespace Vantage

/-- Opaque reference geometry (GeoJSON feature collection); the engine only
tests its presence. -/
structure GeoJSONFeatureCollection where
  payload : Nat
deriving DecidableEq, Repr

/-- Opaque geopolitics domain payload. -/
structure GeopoliticsOutput where
  payload : Nat
deriving DecidableEq, Repr

/-- Opaque economy domain payload. -/
structure EconomyOutput where
  payload : Nat
deriving DecidableEq, Repr

/-- Opaque food-supply domain payload. -/
structure FoodSupplyOutput where
  payload : Nat
deriving DecidableEq, Repr

/-- Opaque infrastructure domain payload. -/
structure InfrastructureOutput where
  payload : Nat
deriving DecidableEq, Repr

/-- Opaque civilian-impact domain payload. -/
structure CivilianImpactOutput where
  payload : Nat
deriving DecidableEq, Repr

/-- The analytical result bundle: each domain output is optional (`none`
means "not yet available"), mirroring `AgentResults` as used in MapView. -/
structure AgentResults where
  geopolitics : Option GeopoliticsOutput
  economy : Option EconomyOutput
  food_supply : Option FoodSupplyOutput
  infrastructure : Option InfrastructureOutput
  civilian_impact : Option CivilianImpactOutput
deriving DecidableEq, Repr

/-- Layer toggle flags, mirroring `LayerToggleState`. -/
structure LayerToggleState where
  choropleth : Bool
  conflict : Bool
  foodDesert : Bool
  infrastructure : Bool
  tradeArcs : Bool
  displacementArcs : Bool
  heatmap : Bool
deriving DecidableEq, Repr

/-- The closed set of layer kinds, in source declaration order. -/
inductive LayerKind
  | choropleth
  | conflict
  | foodDesert
  | infrastructure
  | tradeArcs
  | displacementArcs
  | heatmap
deriving DecidableEq, Repr

/-- Layer descriptors. Modelled from the spec: the per-kind builder modules
(`./layers/ChoroplethLayer` etc.) are not under `src/`; the spec states that
builders are pure functions from their stated inputs to an opaque descriptor,
so a descriptor is modelled as a free record of its builder's arguments,
exactly the arguments passed at each call site in MapView.tsx:109-179. -/
inductive LayerDescriptor
  | choropleth (geo : GeoJSONFeatureCollection) (results : AgentResults)
      (selected : Option String)
  | conflict (geopolitics : GeopoliticsOutput) (pulsingRadius : ℚ)
  | foodDesert (geo : GeoJSONFeatureCollection) (foodSupply : FoodSupplyOutput)
  | infrastructure (infra : InfrastructureOutput)
  | tradeArcs (economy : Option EconomyOutput) (foodSupply : Option FoodSupplyOutput)
  | displacementArcs (civilianImpact : CivilianImpactOutput)
  | heatmap (results : AgentResults)
deriving DecidableEq, Repr

/-- The kind of a descriptor. -/
def kindOf : LayerDescriptor → LayerKind
  | .choropleth _ _ _ => .choropleth
  | .conflict _ _ => .conflict
  | .foodDesert _ _ => .foodDesert
  | .infrastructure _ => .infrastructure
  | .tradeArcs _ _ => .tradeArcs
  | .displacementArcs _ => .displacementArcs
  | .heatmap _ => .heatmap

/-- Modelled from the spec: `createChoroplethLayer` (module not under `src/`)
is a pure builder from (geometry, bundle, selection) to one descriptor. -/
def createChoroplethLayer (geo : GeoJSONFeatureCollection) (results : AgentResults)
    (selected : Option String) : LayerDescriptor :=
  .choropleth geo results selected

/-- Modelled from the spec: `createConflictLayer` is a pure builder from
(geopolitics output, pulsing intensity) to one descriptor. -/
def createConflictLayer (g : GeopoliticsOutput) (pulsingRadius : ℚ) : LayerDescriptor :=
  .conflict g pulsingRadius

/-- Modelled from the spec: `createFoodDesertLayer` is a pure builder from
(geometry, food-supply output) to one descriptor. -/
def createFoodDesertLayer (geo : GeoJSONFeatureCollection)
    (fs : FoodSupplyOutput) : LayerDescriptor :=
  .foodDesert geo fs

/-- Modelled from the spec: `createInfrastructureLayer` is a pure builder from
the infrastructure output to one descriptor. -/
def createInfrastructureLayer (i : InfrastructureOutput) : LayerDescriptor :=
  .infrastructure i

/-- Modelled from the spec: `createTradeArcLayer` is a pure builder that
tolerates either of its two optional inputs being absent. -/
def createTradeArcLayer (e : Option EconomyOutput)
    (fs : Option FoodSupplyOutput) : LayerDescriptor :=
  .tradeArcs e fs

/-- Modelled from the spec: `createDisplacementArcLayer` is a pure builder from
the civilian-impact output to one descriptor. -/
def createDisplacementArcLayer (c : CivilianImpactOutput) : LayerDescriptor :=
  .displacementArcs c

/-- Modelled from the spec: `createHeatmapLayer` is a pure builder from the
full result bundle to one descriptor. -/
def createHeatmapLayer (results : AgentResults) : LayerDescriptor :=
  .heatmap results

/-- JavaScript truthiness of the `agentResults` object in the guard
`layerToggles.heatmap && agentResults` (MapView.tsx:168): the prop has a
non-nullable object type, and a non-null object is always truthy. -/
def agentResultsTruthy (_ : AgentResults) : Bool := true

/-- A conditional push `if (flag && input) list.push(builder(input))`: the
guard tests a toggle and the presence of one optional input, and the builder
receives the narrowed (present) input. -/
def pushWhenSome {α β : Type} (c : Bool) (o : Option α) (builder : α → β) : List β :=
  match c, o with
  | true, some a => [builder a]
  | _, _ => []

/-- A conditional push whose guard tests a toggle and the presence of two
optional inputs. -/
def pushWhenSome₂ {α γ β : Type} (c : Bool) (o : Option α) (o₂ : Option γ)
    (builder : α → γ → β) : List β :=
  match c, o, o₂ with
  | true, some a, some b => [builder a b]
  | _, _, _ => []

/-- A conditional push with a boolean guard and an already-formed element. -/
def pushWhen {β : Type} (c : Bool) (x : β) : List β :=
  if c then [x] else []

/-- The composed layer list: the `useMemo` body at MapView.tsx:109-179,
a sequence of guarded pushes into `deckLayers` in source order. -/
def layers (layerToggles : LayerToggleState) (agentResults : AgentResults)
    (selectedCountry : Option String)
    (countriesGeoJSON : Option GeoJSONFeatureCollection)
    (pulsingRadius : ℚ) : List LayerDescriptor :=
  pushWhenSome layerToggles.choropleth countriesGeoJSON
    (fun geo => createChoroplethLayer geo agentResults selectedCountry) ++
  pushWhenSome layerToggles.conflict agentResults.geopolitics
    (fun g => createConflictLayer g pulsingRadius) ++
  pushWhenSome₂ layerToggles.foodDesert countriesGeoJSON agentResults.food_supply
    createFoodDesertLayer ++
  pushWhenSome layerToggles.infrastructure agentResults.infrastructure
    createInfrastructureLayer ++
  pushWhen (layerToggles.tradeArcs &&
      (agentResults.economy.isSome || agentResults.food_supply.isSome))
    (createTradeArcLayer agentResults.economy agentResults.food_supply) ++
  pushWhenSome layerToggles.displacementArcs agentResults.civilian_impact
    createDisplacementArcLayer ++
  pushWhen (layerToggles.heatmap && agentResultsTruthy agentResults)
    (createHeatmapLayer agentResults)

/-- The fixed canonical declaration order of layer kinds. -/
def canonicalLayerKinds : List LayerKind :=
  [.choropleth, .conflict, .foodDesert, .infrastructure, .tradeArcs,
   .displacementArcs, .heatmap]

/-- The kind list produced by seven guarded pushes in canonical order. -/
def guardedKinds (c₁ c₂ c₃ c₄ c₅ c₆ c₇ : Bool) : List LayerKind :=
  pushWhen c₁ .choropleth ++ pushWhen c₂ .conflict ++ pushWhen c₃ .foodDesert ++
  pushWhen c₄ .infrastructure ++ pushWhen c₅ .tradeArcs ++
  pushWhen c₆ .displacementArcs ++ pushWhen c₇ .heatmap

theorem map_pushWhen {β γ : Type} (c : Bool) (x : β) (f : β → γ) :
    (pushWhen c x).map f = pushWhen c (f x) := by
  cases c <;> rfl

theorem kind_pushWhenSome {α : Type} (c : Bool) (o : Option α)
    (bld : α → LayerDescriptor) (k : LayerKind) (h : ∀ a, kindOf (bld a) = k) :
    (pushWhenSome c o bld).map kindOf = pushWhen (c && o.isSome) k := by
  cases c <;> cases o <;> simp [pushWhenSome, pushWhen, h]

theorem kind_pushWhenSome₂ {α γ : Type} (c : Bool) (o : Option α) (o₂ : Option γ)
    (bld : α → γ → LayerDescriptor) (k : LayerKind)
    (h : ∀ a b, kindOf (bld a b) = k) :
    (pushWhenSome₂ c o o₂ bld).map kindOf = pushWhen (c && o.isSome && o₂.isSome) k := by
  cases c <;> cases o <;> cases o₂ <;> simp [pushWhenSome₂, pushWhen, h]

theorem kind_block_choropleth (c : Bool) (o : Option GeoJSONFeatureCollection)
    (b : AgentResults) (sel : Option String) :
    (pushWhenSome c o (fun geo => createChoroplethLayer geo b sel)).map kindOf =
      pushWhen (c && o.isSome) LayerKind.choropleth :=
  kind_pushWhenSome _ _ _ _ (fun _ => rfl)

theorem kind_block_conflict (c : Bool) (o : Option GeopoliticsOutput) (p : ℚ) :
    (pushWhenSome c o (fun g => createConflictLayer g p)).map kindOf =
      pushWhen (c && o.isSome) LayerKind.conflict :=
  kind_pushWhenSome _ _ _ _ (fun _ => rfl)

theorem kind_block_foodDesert (c : Bool) (o : Option GeoJSONFeatureCollection)
    (o₂ : Option FoodSupplyOutput) :
    (pushWhenSome₂ c o o₂ createFoodDesertLayer).map kindOf =
      pushWhen (c && o.isSome && o₂.isSome) LayerKind.foodDesert :=
  kind_pushWhenSome₂ _ _ _ _ _ (fun _ _ => rfl)

theorem kind_block_infrastructure (c : Bool) (o : Option InfrastructureOutput) :
    (pushWhenSome c o createInfrastructureLayer).map kindOf =
      pushWhen (c && o.isSome) LayerKind.infrastructure :=
  kind_pushWhenSome _ _ _ _ (fun _ => rfl)

theorem kind_block_displacementArcs (c : Bool) (o : Option CivilianImpactOutput) :
    (pushWhenSome c o createDisplacementArcLayer).map kindOf =
      pushWhen (c && o.isSome) LayerKind.displacementArcs :=
  kind_pushWhenSome _ _ _ _ (fun _ => rfl)

/-- The kinds of the composed list are the seven guarded pushes of the seven
canonical kinds, guarded by the source's inclusion conditions. -/
theorem layers_map_kindOf (t : LayerToggleState) (b : AgentResults)
    (sel : Option String) (g : Option GeoJSONFeatureCollection) (p : ℚ) :
    (layers t b sel g p).map kindOf =
      guardedKinds (t.choropleth && g.isSome)
        (t.conflict && b.geopolitics.isSome)
        (t.foodDesert && g.isSome && b.food_supply.isSome)
        (t.infrastructure && b.infrastructure.isSome)
        (t.tradeArcs && (b.economy.isSome || b.food_supply.isSome))
        (t.displacementArcs && b.civilian_impact.isSome)
        (t.heatmap && agentResultsTruthy b) := by
  unfold layers guardedKinds
  simp only [List.map_append, map_pushWhen, kind_block_choropleth,
    kind_block_conflict, kind_block_foodDesert, kind_block_infrastructure,
    kind_block_displacementArcs]
  rfl

theorem guardedKinds_nodup_sublist :
    ∀ c₁ c₂ c₃ c₄ c₅ c₆ c₇ : Bool,
      (guardedKinds c₁ c₂ c₃ c₄ c₅ c₆ c₇).Nodup ∧
      List.Sublist (guardedKinds c₁ c₂ c₃ c₄ c₅ c₆ c₇) canonicalLayerKinds := by
  decide

theorem mem_guardedKinds :
    ∀ c₁ c₂ c₃ c₄ c₅ c₆ c₇ : Bool,
      ((LayerKind.choropleth ∈ guardedKinds c₁ c₂ c₃ c₄ c₅ c₆ c₇) ↔ c₁ = true) ∧
      ((LayerKind.conflict ∈ guardedKinds c₁ c₂ c₃ c₄ c₅ c₆ c₇) ↔ c₂ = true) ∧
      ((LayerKind.foodDesert ∈ guardedKinds c₁ c₂ c₃ c₄ c₅ c₆ c₇) ↔ c₃ = true) ∧
      ((LayerKind.infrastructure ∈ guardedKinds c₁ c₂ c₃ c₄ c₅ c₆ c₇) ↔ c₄ = true) ∧
      ((LayerKind.tradeArcs ∈ guardedKinds c₁ c₂ c₃ c₄ c₅ c₆ c₇) ↔ c₅ = true) ∧
      ((LayerKind.displacementArcs ∈ guardedKinds c₁ c₂ c₃ c₄ c₅ c₆ c₇) ↔ c₆ = true) ∧
      ((LayerKind.heatmap ∈ guardedKinds c₁ c₂ c₃ c₄ c₅ c₆ c₇) ↔ c₇ = true) := by
  decide

theorem mem_pushWhen {β : Type} (d : β) (c : Bool) (x : β) :
    d ∈ pushWhen c x ↔ c = true ∧ d = x := by
  cases c <;> simp [pushWhen]

theorem mem_pushWhenSome {α β : Type} (d : β) (c : Bool) (o : Option α)
    (bld : α → β) :
    d ∈ pushWhenSome c o bld ↔ c = true ∧ ∃ a, o = some a ∧ d = bld a := by
  cases c <;> cases o <;> simp [pushWhenSome]

theorem mem_pushWhenSome₂ {α γ β : Type} (d : β) (c : Bool) (o : Option α)
    (o₂ : Option γ) (bld : α → γ → β) :
    d ∈ pushWhenSome₂ c o o₂ bld ↔
      c = true ∧ ∃ a a₂, o = some a ∧ o₂ = some a₂ ∧ d = bld a a₂ := by
  cases c <;> cases o <;> cases o₂ <;> simp [pushWhenSome₂]

/-- The declared inputs a descriptor's builder was invoked with, related back
to the composition inputs: each arm records that the corresponding toggle was
set, that every input the guard requires was present, and that the builder
received exactly the narrowed values. -/
def builderInputs (t : LayerToggleState) (b : AgentResults) (sel : Option String)
    (g : Option GeoJSONFeatureCollection) (p : ℚ) : LayerDescriptor → Prop
  | .choropleth geo res s =>
      t.choropleth = true ∧ g = some geo ∧ res = b ∧ s = sel
  | .conflict gp pr => t.conflict = true ∧ b.geopolitics = some gp ∧ pr = p
  | .foodDesert geo fs =>
      t.foodDesert = true ∧ g = some geo ∧ b.food_supply = some fs
  | .infrastructure i => t.infrastructure = true ∧ b.infrastructure = some i
  | .tradeArcs e f =>
      t.tradeArcs = true ∧ (e.isSome = true ∨ f.isSome = true) ∧
      e = b.economy ∧ f = b.food_supply
  | .displacementArcs c => t.displacementArcs = true ∧ b.civilian_impact = some c
  | .heatmap res => t.heatmap = true ∧ res = b

/-- Membership characterization of the composed list: a descriptor is in the
list exactly when its kind's guard held and it is the builder's output on the
narrowed inputs. -/
theorem mem_layers_iff (t : LayerToggleState) (b : AgentResults)
    (sel : Option String) (g : Option GeoJSONFeatureCollection) (p : ℚ)
    (d : LayerDescriptor) :
    d ∈ layers t b sel g p ↔ builderInputs t b sel g p d := by
  cases d <;>
    simp [layers, List.mem_append, mem_pushWhen, mem_pushWhenSome,
      mem_pushWhenSome₂, builderInputs, createChoroplethLayer,
      createConflictLayer, createFoodDesertLayer, createInfrastructureLayer,
      createTradeArcLayer, createDisplacementArcLayer, createHeatmapLayer,
      agentResultsTruthy, Bool.and_eq_true, Bool.or_eq_true] <;>
    aesop

/-- One dimension check of the readiness gate (MapView.tsx:62-66): set `ready`
when both container dimensions are positive, otherwise leave it unchanged. -/
def readyCheck (ready : Bool) (w h : Nat) : Bool :=
  if 0 < w ∧ 0 < h then true else ready

/-- The readiness state after a sequence of layout notifications, each
re-running the dimension check. -/
def readyRun (ready : Bool) (obs : List (Nat × Nat)) : Bool :=
  obs.foldl (fun r d => readyCheck r d.1 d.2) ready

/-- The readiness state over the mounted lifetime: the immediate check on the
initial dimensions (MapView.tsx:69), then the observed notifications. -/
def readyAfterMount (init : Nat × Nat) (obs : List (Nat × Nat)) : Bool :=
  readyRun (readyCheck false init.1 init.2) obs

theorem readyCheck_eq (r : Bool) (w h : Nat) :
    readyCheck r w h = (r || decide (0 < w ∧ 0 < h)) := by
  unfold readyCheck
  split <;> simp_all

theorem readyRun_eq (r : Bool) (obs : List (Nat × Nat)) :
    readyRun r obs = (r || obs.any fun d => decide (0 < d.1 ∧ 0 < d.2)) := by
  induction obs generalizing r with
  | nil => simp [readyRun]
  | cons d obs ih =>
      have h : readyRun r (d :: obs) = readyRun (readyCheck r d.1 d.2) obs := rfl
      rw [h, ih, readyCheck_eq, List.any_cons, Bool.or_assoc]

/-- Round a rational to the nearest integer, ties to even. -/
def roundNearestEven (q : ℚ) : ℤ :=
  if q - ⌊q⌋ < 1 / 2 then ⌊q⌋
  else if 1 / 2 < q - ⌊q⌋ then ⌊q⌋ + 1
  else if ⌊q⌋ % 2 = 0 then ⌊q⌋ else ⌊q⌋ + 1

/-- Exact binary64 (IEEE 754 double, round-to-nearest-even) rounding of a
rational, modelled over the rationals: the significand field is 52 bits, so a
positive value with base-2 exponent `e` is rounded to the nearest multiple of
`2 ^ (e - 52)`. Only the normal range matters here: all values taken by the
pulsing scalar and its literals lie well inside it, so subnormals and overflow
are not modelled, and non-positive arguments (which do not occur) are returned
unchanged. -/
def fl64 (q : ℚ) : ℚ :=
  if q ≤ 0 then q
  else
    (roundNearestEven (q * 2 ^ ((52 : ℤ) - Int.log 2 q)) : ℚ) /
      2 ^ ((52 : ℤ) - Int.log 2 q)

/-- The binary64 value of the source literal `0.02` (MapView.tsx:84). -/
def jsNum002 : ℚ := fl64 (2 / 100)

/-- The binary64 value of the source literal `1.2` (MapView.tsx:85). -/
def jsNum12 : ℚ := fl64 (12 / 10)

/-- The binary64 value of the source literal `0.8` (MapView.tsx:85). -/
def jsNum08 : ℚ := fl64 (8 / 10)

/-- One animation tick (MapView.tsx:83-86): `next = prev + 0.02` in binary64
arithmetic, then `next > 1.2 ? 0.8 : next`. -/
def pulseTick (prev : ℚ) : ℚ :=
  let next := fl64 (prev + jsNum002)
  if jsNum12 < next then jsNum08 else next

/-- The pulsing scalar after `n` ticks, starting from the initial state `1`
(MapView.tsx:50). -/
def pulseValue : Nat → ℚ
  | 0 => 1
  | n + 1 => pulseTick (pulseValue n)

theorem roundNearestEven_eq_of_lt_half (q : ℚ) (m : ℤ) (h1 : (m : ℚ) ≤ q)
    (h2 : q < (m : ℚ) + 1 / 2) : roundNearestEven q = m := by
  have hf : ⌊q⌋ = m := Int.floor_eq_iff.mpr ⟨h1, by linarith⟩
  unfold roundNearestEven
  rw [hf, if_pos (by linarith)]

theorem roundNearestEven_eq_of_half_lt (q : ℚ) (m : ℤ) (h1 : (m : ℚ) + 1 / 2 < q)
    (h2 : q < (m : ℚ) + 1) : roundNearestEven q = m + 1 := by
  have hf : ⌊q⌋ = m := Int.floor_eq_iff.mpr ⟨by linarith, by linarith⟩
  unfold roundNearestEven
  rw [hf, if_neg (by linarith), if_pos (by linarith)]

/-- Evaluation rule for `fl64` on a positive rational with known base-2
exponent `e` and known rounding result `m` at scale `2 ^ k`, `k = 52 - e`. -/
theorem fl64_eval (q : ℚ) (e : ℤ) (k : ℕ) (m : ℤ) (hq : 0 < q)
    (hk : (52 : ℤ) - e = (k : ℤ))
    (h1 : (2 : ℚ) ^ e ≤ q) (h2 : q < (2 : ℚ) ^ (e + 1))
    (hm : roundNearestEven (q * 2 ^ k) = m) :
    fl64 q = (m : ℚ) / 2 ^ k := by
  have h1' : ((2 : ℕ) : ℚ) ^ e ≤ q := by exact_mod_cast h1
  have h2' : q < ((2 : ℕ) : ℚ) ^ (e + 1) := by exact_mod_cast h2
  have hlog : Int.log 2 q = e :=
    le_antisymm (Int.lt_add_one_iff.mp ((Int.lt_zpow_iff_log_lt one_lt_two hq).mp h2'))
      ((Int.zpow_le_iff_le_log one_lt_two hq).mp h1')
  unfold fl64
  rw [if_neg (not_le.mpr hq), hlog, hk, zpow_natCast, hm]

theorem jsNum002_eq : jsNum002 = 5764607523034235 / 2 ^ 58 := by
  have h := fl64_eval (2 / 100) (-6) 58 (5764607523034234 + 1) (by norm_num)
    (by norm_num) (by norm_num) (by norm_num)
    (roundNearestEven_eq_of_half_lt _ 5764607523034234 (by norm_num) (by norm_num))
  unfold jsNum002
  rw [h]; norm_num

theorem jsNum12_eq : jsNum12 = 5404319552844595 / 2 ^ 52 := by
  have h := fl64_eval (12 / 10) 0 52 5404319552844595 (by norm_num)
    (by norm_num) (by norm_num) (by norm_num)
    (roundNearestEven_eq_of_lt_half _ 5404319552844595 (by norm_num) (by norm_num))
  unfold jsNum12
  rw [h]; norm_num

theorem jsNum08_eq : jsNum08 = 3602879701896397 / 2 ^ 52 := by
  have h := fl64_eval (8 / 10) (-1) 53 (7205759403792793 + 1) (by norm_num)
    (by norm_num) (by norm_num) (by norm_num)
    (roundNearestEven_eq_of_half_lt _ 7205759403792793 (by norm_num) (by norm_num))
  unfold jsNum08
  rw [h]; norm_num

theorem pulseTick_eq_next (v next : ℚ) (h : fl64 (v + jsNum002) = next)
    (hle : ¬ jsNum12 < next) : pulseTick v = next := by
  unfold pulseTick
  rw [h, if_neg hle]

theorem pulseTick_eq_reset (v next : ℚ) (h : fl64 (v + jsNum002) = next)
    (hlt : jsNum12 < next) : pulseTick v = jsNum08 := by
  unfold pulseTick
  rw [h, if_pos hlt]

theorem pulseTick_step1 : pulseTick (1) = 2296835809958953 / 2 ^ 51 := by
  apply pulseTick_eq_next
  · rw [jsNum002_eq]
    have hq : (1 : ℚ) + 5764607523034235 / 2 ^ 58 = 293994983674745979 / 2 ^ 58 := by norm_num
    rw [hq]
    have h := fl64_eval (293994983674745979 / 2 ^ 58) 0 52 (4593671619917905 + 1) (by norm_num)
      (by norm_num) (by norm_num) (by norm_num)
      (roundNearestEven_eq_of_half_lt _ 4593671619917905 (by norm_num) (by norm_num))
    rw [h]; norm_num
  · rw [jsNum12_eq]; norm_num

theorem pulseTick_step2 : pulseTick (2296835809958953 / 2 ^ 51) = 1170935903116329 / 2 ^ 50 := by
  apply pulseTick_eq_next
  · rw [jsNum002_eq]
    have hq : (2296835809958953 / 2 ^ 51 : ℚ) + 5764607523034235 / 2 ^ 58 = 299759591197780219 / 2 ^ 58 := by norm_num
    rw [hq]
    have h := fl64_eval (299759591197780219 / 2 ^ 58) 0 52 (4683743612465315 + 1) (by norm_num)
      (by norm_num) (by norm_num) (by norm_num)
      (roundNearestEven_eq_of_half_lt _ 4683743612465315 (by norm_num) (by norm_num))
    rw [h]; norm_num
  · rw [jsNum12_eq]; norm_num

theorem pulseTick_step3 : pulseTick (1170935903116329 / 2 ^ 50) = 2386907802506363 / 2 ^ 51 := by
  apply pulseTick_eq_next
  · rw [jsNum002_eq]
    have hq : (1170935903116329 / 2 ^ 50 : ℚ) + 5764607523034235 / 2 ^ 58 = 305524198720814459 / 2 ^ 58 := by norm_num
    rw [hq]
    have h := fl64_eval (305524198720814459 / 2 ^ 58) 0 52 (4773815605012725 + 1) (by norm_num)
      (by norm_num) (by norm_num) (by norm_num)
      (roundNearestEven_eq_of_half_lt _ 4773815605012725 (by norm_num) (by norm_num))
    rw [h]; norm_num
  · rw [jsNum12_eq]; norm_num

theorem pulseTick_step4 : pulseTick (2386907802506363 / 2 ^ 51) = 607985949695017 / 2 ^ 49 := by
  apply pulseTick_eq_next
  · rw [jsNum002_eq]
    have hq : (2386907802506363 / 2 ^ 51 : ℚ) + 5764607523034235 / 2 ^ 58 = 311288806243848699 / 2 ^ 58 := by norm_num
    rw [hq]
    have h := fl64_eval (311288806243848699 / 2 ^ 58) 0 52 (4863887597560135 + 1) (by norm_num)
      (by norm_num) (by norm_num) (by norm_num)
      (roundNearestEven_eq_of_half_lt _ 4863887597560135 (by norm_num) (by norm_num))
    rw [h]; norm_num
  · rw [jsNum12_eq]; norm_num

theorem pulseTick_step5 : pulseTick (607985949695017 / 2 ^ 49) = 2476979795053773 / 2 ^ 51 := by
  apply pulseTick_eq_next
  · rw [jsNum002_eq]
    have hq : (607985949695017 / 2 ^ 49 : ℚ) + 5764607523034235 / 2 ^ 58 = 317053413766882939 / 2 ^ 58 := by norm_num
    rw [hq]
    have h := fl64_eval (317053413766882939 / 2 ^ 58) 0 52 (4953959590107545 + 1) (by norm_num)
      (by norm_num) (by norm_num) (by norm_num)
      (roundNearestEven_eq_of_half_lt _ 4953959590107545 (by norm_num) (by norm_num))
    rw [h]; norm_num
  · rw [jsNum12_eq]; norm_num

theorem pulseTick_step6 : pulseTick (2476979795053773 / 2 ^ 51) = 1261007895663739 / 2 ^ 50 := by
  apply pulseTick_eq_next
  · rw [jsNum002_eq]
    have hq : (2476979795053773 / 2 ^ 51 : ℚ) + 5764607523034235 / 2 ^ 58 = 322818021289917179 / 2 ^ 58 := by norm_num
    rw [hq]
    have h := fl64_eval (322818021289917179 / 2 ^ 58) 0 52 (5044031582654955 + 1) (by norm_num)
      (by norm_num) (by norm_num) (by norm_num)
      (roundNearestEven_eq_of_half_lt _ 5044031582654955 (by norm_num) (by norm_num))
    rw [h]; norm_num
  · rw [jsNum12_eq]; norm_num

theorem pulseTick_step7 : pulseTick (1261007895663739 / 2 ^ 50) = 2567051787601183 / 2 ^ 51 := by
  apply pulseTick_eq_next
  · rw [jsNum002_eq]
    have hq : (1261007895663739 / 2 ^ 50 : ℚ) + 5764607523034235 / 2 ^ 58 = 328582628812951419 / 2 ^ 58 := by norm_num
    rw [hq]
    have h := fl64_eval (328582628812951419 / 2 ^ 58) 0 52 (5134103575202365 + 1) (by norm_num)
      (by norm_num) (by norm_num) (by norm_num)
      (roundNearestEven_eq_of_half_lt _ 5134103575202365 (by norm_num) (by norm_num))
    rw [h]; norm_num
  · rw [jsNum12_eq]; norm_num

theorem pulseTick_step8 : pulseTick (2567051787601183 / 2 ^ 51) = 326510972984361 / 2 ^ 48 := by
  apply pulseTick_eq_next
  · rw [jsNum002_eq]
    have hq : (2567051787601183 / 2 ^ 51 : ℚ) + 5764607523034235 / 2 ^ 58 = 334347236335985659 / 2 ^ 58 := by norm_num
    rw [hq]
    have h := fl64_eval (334347236335985659 / 2 ^ 58) 0 52 (5224175567749775 + 1) (by norm_num)
      (by norm_num) (by norm_num) (by norm_num)
      (roundNearestEven_eq_of_half_lt _ 5224175567749775 (by norm_num) (by norm_num))
    rw [h]; norm_num
  · rw [jsNum12_eq]; norm_num

theorem pulseTick_step9 : pulseTick (326510972984361 / 2 ^ 48) = 2657123780148593 / 2 ^ 51 := by
  apply pulseTick_eq_next
  · rw [jsNum002_eq]
    have hq : (326510972984361 / 2 ^ 48 : ℚ) + 5764607523034235 / 2 ^ 58 = 340111843859019899 / 2 ^ 58 := by norm_num
    rw [hq]
    have h := fl64_eval (340111843859019899 / 2 ^ 58) 0 52 (5314247560297185 + 1) (by norm_num)
      (by norm_num) (by norm_num) (by norm_num)
      (roundNearestEven_eq_of_half_lt _ 5314247560297185 (by norm_num) (by norm_num))
    rw [h]; norm_num
  · rw [jsNum12_eq]; norm_num

theorem pulseTick_step10 : pulseTick (2657123780148593 / 2 ^ 51) = jsNum08 := by
  apply pulseTick_eq_reset _ (1351079888211149 / 2 ^ 50)
  · rw [jsNum002_eq]
    have hq : (2657123780148593 / 2 ^ 51 : ℚ) + 5764607523034235 / 2 ^ 58 = 345876451382054139 / 2 ^ 58 := by norm_num
    rw [hq]
    have h := fl64_eval (345876451382054139 / 2 ^ 58) 0 52 (5404319552844595 + 1) (by norm_num)
      (by norm_num) (by norm_num) (by norm_num)
      (roundNearestEven_eq_of_half_lt _ 5404319552844595 (by norm_num) (by norm_num))
    rw [h]; norm_num
  · rw [jsNum12_eq]; norm_num

theorem pulseTick_step11 : pulseTick (3602879701896397 / 2 ^ 52) = 3692951694443807 / 2 ^ 52 := by
  apply pulseTick_eq_next
  · rw [jsNum002_eq]
    have hq : (3602879701896397 / 2 ^ 52 : ℚ) + 5764607523034235 / 2 ^ 58 = 236348908444403643 / 2 ^ 58 := by norm_num
    rw [hq]
    have h := fl64_eval (236348908444403643 / 2 ^ 58) (-1) 53 (7385903388887613 + 1) (by norm_num)
      (by norm_num) (by norm_num) (by norm_num)
      (roundNearestEven_eq_of_half_lt _ 7385903388887613 (by norm_num) (by norm_num))
    rw [h]; norm_num
  · rw [jsNum12_eq]; norm_num

theorem pulseValue_zero : pulseValue 0 = 1 := rfl

theorem pulseValue_one : pulseValue 1 = 2296835809958953 / 2 ^ 51 := by
  show pulseTick (pulseValue 0) = _
  rw [pulseValue_zero, pulseTick_step1]

theorem pulseValue_two : pulseValue 2 = 1170935903116329 / 2 ^ 50 := by
  show pulseTick (pulseValue 1) = _
  rw [pulseValue_one, pulseTick_step2]

theorem pulseValue_three : pulseValue 3 = 2386907802506363 / 2 ^ 51 := by
  show pulseTick (pulseValue 2) = _
  rw [pulseValue_two, pulseTick_step3]

theorem pulseValue_four : pulseValue 4 = 607985949695017 / 2 ^ 49 := by
  show pulseTick (pulseValue 3) = _
  rw [pulseValue_three, pulseTick_step4]

theorem pulseValue_five : pulseValue 5 = 2476979795053773 / 2 ^ 51 := by
  show pulseTick (pulseValue 4) = _
  rw [pulseValue_four, pulseTick_step5]

theorem pulseValue_six : pulseValue 6 = 1261007895663739 / 2 ^ 50 := by
  show pulseTick (pulseValue 5) = _
  rw [pulseValue_five, pulseTick_step6]

theorem pulseValue_seven : pulseValue 7 = 2567051787601183 / 2 ^ 51 := by
  show pulseTick (pulseValue 6) = _
  rw [pulseValue_six, pulseTick_step7]

theorem pulseValue_eight : pulseValue 8 = 326510972984361 / 2 ^ 48 := by
  show pulseTick (pulseValue 7) = _
  rw [pulseValue_seven, pulseTick_step8]

theorem pulseValue_nine : pulseValue 9 = 2657123780148593 / 2 ^ 51 := by
  show pulseTick (pulseValue 8) = _
  rw [pulseValue_eight, pulseTick_step9]

theorem pulseValue_ten : pulseValue 10 = jsNum08 := by
  show pulseTick (pulseValue 9) = _
  rw [pulseValue_nine, pulseTick_step10]

theorem pulseValue_eleven : pulseValue 11 = 3692951694443807 / 2 ^ 52 := by
  show pulseTick (pulseValue 10) = _
  rw [pulseValue_ten, jsNum08_eq, pulseTick_step11]

/-- Feature properties attached to a pick result; either property may be
absent (the handlers' types are `{ ISO_A3?: string }` and `any`). -/
structure PickedProperties where
  NAME : Option String
  ISO_A3 : Option String
deriving DecidableEq, Repr

/-- The picked object of a pick result; its `properties` may be absent. -/
structure PickedObject where
  properties : Option PickedProperties
deriving DecidableEq, Repr

/-- A raw pick result from the render surface; `object` may be absent. -/
structure PickInfo where
  object : Option PickedObject
deriving DecidableEq, Repr

/-- JavaScript truthiness of an optional string property: `undefined` and the
empty string are falsy; any other string is truthy. -/
def truthyString : Option String → Bool
  | none => false
  | some s => !(s == "")

/-- The optional chain `info.object?.properties?.NAME`. -/
def pickNAME (info : PickInfo) : Option String :=
  (info.object.bind PickedObject.properties).bind PickedProperties.NAME

/-- The optional chain `info.object?.properties?.ISO_A3`. -/
def pickISO (info : PickInfo) : Option String :=
  (info.object.bind PickedObject.properties).bind PickedProperties.ISO_A3

/-- The click handler (MapView.tsx:100-107): the region-click event emitted,
if any — `if (info.object?.properties?.ISO_A3) onCountryClick(...)`, a JS
truthiness test on the identifier. -/
def onClickEvent (info : PickInfo) : Option String :=
  if truthyString (pickISO info) then pickISO info else none

/-- The tooltip resolution (MapView.tsx:192-194):
`object?.properties?.NAME || object?.properties?.ISO_A3 || null`, JS `||`
falling through falsy values. -/
def getTooltip (info : PickInfo) : Option String :=
  if truthyString (pickNAME info) then pickNAME info
  else if truthyString (pickISO info) then pickISO info
  else none

/-- Erase the choropleth highlight parameter (the selection argument); all
other descriptors are untouched. -/
def stripSelection : LayerDescriptor → LayerDescriptor
  | .choropleth geo res _ => .choropleth geo res none
  | .conflict g p => .conflict g p
  | .foodDesert geo fs => .foodDesert geo fs
  | .infrastructure i => .infrastructure i
  | .tradeArcs e f => .tradeArcs e f
  | .displacementArcs c => .displacementArcs c
  | .heatmap res => .heatmap res

/-- The dependency tuple of the `useMemo` at MapView.tsx:173-179. -/
structure ComposeDeps where
  layerToggles : LayerToggleState
  agentResults : AgentResults
  selectedCountry : Option String
  countriesGeoJSON : Option GeoJSONFeatureCollection
  pulsingRadius : ℚ
deriving DecidableEq, Repr

/-- The composed list as a function of the memo dependencies. -/
def composeFromDeps (d : ComposeDeps) : List LayerDescriptor :=
  layers d.layerToggles d.agentResults d.selectedCountry d.countriesGeoJSON
    d.pulsingRadius

/-- One `useMemo` evaluation: given the current dependencies and the cached
(previous dependencies, previous value), return the produced list together
with a flag recording whether the body was re-executed. The body re-executes
exactly when some dependency changed. -/
def useMemoLayers (deps : ComposeDeps)
    (cache : Option (ComposeDeps × List LayerDescriptor)) :
    List LayerDescriptor × Bool :=
  match cache with
  | some (d₀, v₀) => if deps = d₀ then (v₀, false) else (composeFromDeps deps, true)
  | none => (composeFromDeps deps, true)

/-- The kinds whose builders are invoked by one `useMemo` evaluation: on a
cache hit no builder runs; on a re-execution each included kind's builder is
invoked exactly once (each guarded push calls its builder exactly when its
guard holds), so a fresh descriptor object is constructed for every included
kind. -/
def invokedBuilders (deps : ComposeDeps)
    (cache : Option (ComposeDeps × List LayerDescriptor)) : List LayerKind :=
  match cache with
  | some (d₀, _) => if deps = d₀ then [] else (composeFromDeps deps).map kindOf
  | none => (composeFromDeps deps).map kindOf

/-- Example toggle state with every layer enabled. -/
def allToggles : LayerToggleState := ⟨true, true, true, true, true, true, true⟩

/-- Example result bundle with every domain output present. -/
def fullResults : AgentResults := ⟨some ⟨0⟩, some ⟨0⟩, some ⟨0⟩, some ⟨0⟩, some ⟨0⟩⟩

/-- Example result bundle with every domain output absent. -/
def emptyResults : AgentResults := ⟨none, none, none, none, none⟩

/-- Example reference geometry. -/
def sampleGeo : GeoJSONFeatureCollection := ⟨0⟩

/-- Example memo dependencies: only the heatmap toggle on, empty bundle. -/
def exDepsBase : ComposeDeps := ⟨⟨false, false, false, false, false, false, true⟩,
  emptyResults, none, none, 1⟩

/-- Example memo dependencies: as `exDepsBase` but with the conflict toggle
(a toggle unrelated to the heatmap kind) flipped on. -/
def exDepsToggled : ComposeDeps := ⟨⟨false, true, false, false, false, false, true⟩,
  emptyResults, none, none, 1⟩

theorem map_pushWhenSome {α β γ : Type} (c : Bool) (o : Option α) (bld : α → β)
    (f : β → γ) : (pushWhenSome c o bld).map f = pushWhenSome c o (f ∘ bld) := by
  cases c <;> cases o <;> rfl

theorem map_pushWhenSome₂ {α γ β δ : Type} (c : Bool) (o : Option α)
    (o₂ : Option γ) (bld : α → γ → β) (f : β → δ) :
    (pushWhenSome₂ c o o₂ bld).map f = pushWhenSome₂ c o o₂ (fun a b => f (bld a b)) := by
  cases c <;> cases o <;> cases o₂ <;> rfl

theorem pushWhenSome_ext {α β : Type} (c : Bool) (o : Option α) (f f' : α → β)
    (h : ∀ a, f a = f' a) : pushWhenSome c o f = pushWhenSome c o f' := by
  cases c <;> cases o <;> simp [pushWhenSome, h]

theorem filter_pushWhenSome_none {α β : Type} (f : β → Bool) (c : Bool)
    (o : Option α) (bld : α → β) (h : ∀ a, f (bld a) = false) :
    (pushWhenSome c o bld).filter f = [] := by
  cases c <;> cases o <;> simp [pushWhenSome, h]

theorem filter_pushWhenSome₂_none {α γ β : Type} (f : β → Bool) (c : Bool)
    (o : Option α) (o₂ : Option γ) (bld : α → γ → β)
    (h : ∀ a b, f (bld a b) = false) :
    (pushWhenSome₂ c o o₂ bld).filter f = [] := by
  cases c <;> cases o <;> cases o₂ <;> simp [pushWhenSome₂, h]

theorem filter_pushWhen_pos {β : Type} (f : β → Bool) (c : Bool) (x : β)
    (h : f x = true) : (pushWhen c x).filter f = pushWhen c x := by
  cases c <;> simp [pushWhen, h]

theorem filter_pushWhen_neg {β : Type} (f : β → Bool) (c : Bool) (x : β)
    (h : f x = false) : (pushWhen c x).filter f = [] := by
  cases c <;> simp [pushWhen, h]

/-- The heatmap part of the composed list depends only on the heatmap toggle
and the result bundle. -/
theorem layers_filter_heatmap (t : LayerToggleState) (b : AgentResults)
    (sel : Option String) (g : Option GeoJSONFeatureCollection) (p : ℚ) :
    (layers t b sel g p).filter (fun x => kindOf x == LayerKind.heatmap) =
      pushWhen (t.heatmap && agentResultsTruthy b) (createHeatmapLayer b) := by
  unfold layers
  simp only [List.filter_append]
  rw [filter_pushWhenSome_none _ _ _ _ (fun _ => rfl),
    filter_pushWhenSome_none _ _ _ _ (fun _ => rfl),
    filter_pushWhenSome₂_none _ _ _ _ _ (fun _ _ => rfl),
    filter_pushWhenSome_none _ _ _ _ (fun _ => rfl),
    filter_pushWhen_neg _ _ _ rfl,
    filter_pushWhenSome_none _ _ _ _ (fun _ => rfl),
    filter_pushWhen_pos _ _ _ rfl]
  simp

/-- C1: for every toggle state, result bundle, selection, reference geometry
and pulsing intensity, the composed layer list contains at most one descriptor
per kind (its kind list has no duplicates), and the kinds appear in exactly
the fixed canonical declaration order (the kind list is a sublist of the
canonical order), regardless of which subset of kinds is present. -/
theorem layers_nodup_and_canonical_order (t : LayerToggleState) (b : AgentResults)
    (sel : Option String) (g : Option GeoJSONFeatureCollection) (p : ℚ) :
    ((layers t b sel g p).map kindOf).Nodup ∧
    List.Sublist ((layers t b sel g p).map kindOf) canonicalLayerKinds := by
  rw [layers_map_kindOf]
  exact guardedKinds_nodup_sublist _ _ _ _ _ _ _

/-- C2: a layer kind appears in the composed list exactly when its inclusion
rule holds — choropleth iff toggled and geometry present; conflict iff toggled
and geopolitics present; foodDesert iff toggled, geometry present and
food-supply present; infrastructure iff toggled and infrastructure present;
tradeArcs iff toggled and economy or food-supply present; displacementArcs
iff toggled and civilian-impact present — and the trade-arc descriptor
receives exactly the bundle's optional economy and food-supply values
(absent for whichever is missing). -/
theorem layer_inclusion_iff (t : LayerToggleState) (b : AgentResults)
    (sel : Option String) (g : Option GeoJSONFeatureCollection) (p : ℚ) :
    (LayerKind.choropleth ∈ (layers t b sel g p).map kindOf ↔
      t.choropleth = true ∧ g.isSome = true) ∧
    (LayerKind.conflict ∈ (layers t b sel g p).map kindOf ↔
      t.conflict = true ∧ b.geopolitics.isSome = true) ∧
    (LayerKind.foodDesert ∈ (layers t b sel g p).map kindOf ↔
      t.foodDesert = true ∧ g.isSome = true ∧ b.food_supply.isSome = true) ∧
    (LayerKind.infrastructure ∈ (layers t b sel g p).map kindOf ↔
      t.infrastructure = true ∧ b.infrastructure.isSome = true) ∧
    (LayerKind.tradeArcs ∈ (layers t b sel g p).map kindOf ↔
      t.tradeArcs = true ∧ (b.economy.isSome = true ∨ b.food_supply.isSome = true)) ∧
    (LayerKind.displacementArcs ∈ (layers t b sel g p).map kindOf ↔
      t.displacementArcs = true ∧ b.civilian_impact.isSome = true) ∧
    (createTradeArcLayer b.economy b.food_supply ∈ layers t b sel g p ↔
      t.tradeArcs = true ∧ (b.economy.isSome = true ∨ b.food_supply.isSome = true)) := by
  obtain ⟨h1, h2, h3, h4, h5, h6, h7⟩ :=
    mem_guardedKinds (t.choropleth && g.isSome) (t.conflict && b.geopolitics.isSome)
      (t.foodDesert && g.isSome && b.food_supply.isSome)
      (t.infrastructure && b.infrastructure.isSome)
      (t.tradeArcs && (b.economy.isSome || b.food_supply.isSome))
      (t.displacementArcs && b.civilian_impact.isSome)
      (t.heatmap && agentResultsTruthy b)
  rw [layers_map_kindOf]
  refine ⟨?_, ?_, ?_, ?_, ?_, ?_, ?_⟩
  · rw [h1]; simp [Bool.and_eq_true]
  · rw [h2]; simp [Bool.and_eq_true]
  · rw [h3]; simp [Bool.and_eq_true, and_assoc]
  · rw [h4]; simp [Bool.and_eq_true]
  · rw [h5]; simp [Bool.and_eq_true, Bool.or_eq_true]
  · rw [h6]; simp [Bool.and_eq_true]
  · rw [mem_layers_iff]
    simp [createTradeArcLayer, builderInputs]

/-- C3 counterexample: the claim "after exactly 10 ticks the value is exactly
1.2 and the 11th tick resets to 0.8" is false at the concrete execution of
the code: under exact binary64 arithmetic the 10th tick's value is already
the wrapped-around `0.8` double (strictly below 1.2 under both readings of
"1.2": the rational 6/5 and the binary64 literal), and the 11th tick moves
strictly above 0.8 instead of resetting to it. -/
theorem pulse_tick10_counterexample :
    pulseValue 10 = jsNum08 ∧ pulseValue 10 < 6 / 5 ∧ pulseValue 10 < jsNum12 ∧
    jsNum08 < pulseValue 11 := by
  refine ⟨pulseValue_ten, ?_, ?_, ?_⟩
  · rw [pulseValue_ten, jsNum08_eq]; norm_num
  · rw [pulseValue_ten, jsNum08_eq, jsNum12_eq]; norm_num
  · rw [pulseValue_eleven, jsNum08_eq]; norm_num

/-- C3 amended: the scalar starts at 1.0 and each tick adds the binary64
constant nearest 0.02 with binary64 rounding; the accumulated value after 9
ticks is 1.1800000000000002… (2657123780148593/2^51), the 10th increment
exceeds the `1.2` literal, so the 10th tick wraps around to the `0.8` literal
(wraparound, not clamping); the 11th tick then yields 0.8200000000000001…,
and the scalar stays strictly below 1.2 throughout ticks 0–11 — it never
equals 1.2. -/
theorem pulse_binary64_wraparound :
    pulseValue 0 = 1 ∧
    pulseValue 9 = 2657123780148593 / 2 ^ 51 ∧
    jsNum12 < fl64 (pulseValue 9 + jsNum002) ∧
    pulseValue 10 = jsNum08 ∧
    pulseValue 11 = 3692951694443807 / 2 ^ 52 ∧
    ∀ n : Fin 12, pulseValue n.val < jsNum12 := by
  refine ⟨pulseValue_zero, pulseValue_nine, ?_, pulseValue_ten, pulseValue_eleven, ?_⟩
  · rw [pulseValue_nine, jsNum002_eq]
    have hq : (2657123780148593 / 2 ^ 51 : ℚ) + 5764607523034235 / 2 ^ 58 =
        345876451382054139 / 2 ^ 58 := by norm_num
    rw [hq]
    have h := fl64_eval (345876451382054139 / 2 ^ 58) 0 52 (5404319552844595 + 1)
      (by norm_num) (by norm_num) (by norm_num) (by norm_num)
      (roundNearestEven_eq_of_half_lt _ 5404319552844595 (by norm_num) (by norm_num))
    rw [h, jsNum12_eq]; norm_num
  · intro n
    fin_cases n <;>
      simp only [pulseValue_zero, pulseValue_one, pulseValue_two, pulseValue_three,
        pulseValue_four, pulseValue_five, pulseValue_six, pulseValue_seven,
        pulseValue_eight, pulseValue_nine, pulseValue_ten, pulseValue_eleven,
        jsNum08_eq, jsNum12_eq] <;>
      norm_num

/-- C4: the readiness gate is monotonic — starting not-ready, after the
initial check and any sequence of layout notifications it is ready exactly
when some observation (the initial check included) saw both dimensions
positive (so it becomes ready at the first such observation), and from the
ready state every further sequence of notifications, zero-sized ones
included, leaves it ready. -/
theorem readiness_monotonic (init : Nat × Nat) (obs later : List (Nat × Nat)) :
    (readyAfterMount init obs = true ↔
      ((init :: obs).any fun d => decide (0 < d.1 ∧ 0 < d.2)) = true) ∧
    readyRun true later = true := by
  constructor
  · unfold readyAfterMount
    rw [readyRun_eq, readyCheck_eq]
    simp
  · rw [readyRun_eq]
    simp

/-- C5: composition is total — it is a function returning a list for every
partially populated bundle and absent geometry — and every descriptor in the
composed list was built with all the inputs its guard requires present: the
builder received exactly the narrowed (non-absent) values recorded by
`builderInputs`. -/
theorem compose_total_and_guarded (t : LayerToggleState) (b : AgentResults)
    (sel : Option String) (g : Option GeoJSONFeatureCollection) (p : ℚ) :
    ∀ d ∈ layers t b sel g p, builderInputs t b sel g p d :=
  fun d hd => (mem_layers_iff t b sel g p d).mp hd

/-- Witness for C5 at a concrete input. -/
theorem compose_total_and_guarded_witness :
    builderInputs allToggles fullResults none (some sampleGeo) 1
      (createHeatmapLayer fullResults) :=
  compose_total_and_guarded allToggles fullResults none (some sampleGeo) 1
    (createHeatmapLayer fullResults) (by decide)

/-- C6 counterexample: the claim "if the pick result carries a display name
property the label is that name; a click event is emitted iff it carries a
region-identifier property" fails on present-but-empty string properties,
which JavaScript truthiness treats as absent: a pick carrying the name `""`
and the identifier `"ETH"` is labelled `"ETH"`, not `""`, and a pick carrying
the identifier `""` emits no click event. -/
theorem interaction_empty_string_counterexample :
    pickNAME ⟨some ⟨some ⟨some "", some "ETH"⟩⟩⟩ = some "" ∧
    getTooltip ⟨some ⟨some ⟨some "", some "ETH"⟩⟩⟩ = some "ETH" ∧
    pickISO ⟨some ⟨some ⟨none, some ""⟩⟩⟩ = some "" ∧
    onClickEvent ⟨some ⟨some ⟨none, some ""⟩⟩⟩ = none := by
  refine ⟨rfl, ?_, rfl, ?_⟩ <;> rfl

/-- C6 amended: with "carries" read as "carries a non-empty value" (JS
truthiness: an empty-string property is treated as absent): if the pick
result carries a truthy display name the label is that name; otherwise if it
carries a truthy identifier the label is that identifier; otherwise there is
no label; a click emits the identifier iff the identifier is truthy, and
otherwise emits nothing. -/
theorem interaction_resolver_contract (info : PickInfo) :
    (truthyString (pickNAME info) = true → getTooltip info = pickNAME info) ∧
    (truthyString (pickNAME info) = false → truthyString (pickISO info) = true →
      getTooltip info = pickISO info) ∧
    (truthyString (pickNAME info) = false → truthyString (pickISO info) = false →
      getTooltip info = none) ∧
    (truthyString (pickISO info) = true → onClickEvent info = pickISO info) ∧
    (truthyString (pickISO info) = false → onClickEvent info = none) :=
  ⟨fun h => by simp [getTooltip, h],
   fun h h2 => by simp [getTooltip, h, h2],
   fun h h2 => by simp [getTooltip, h, h2],
   fun h => by simp [onClickEvent, h],
   fun h => by simp [onClickEvent, h]⟩

/-- Witness for C6 amended at a concrete pick result. -/
theorem interaction_resolver_contract_witness :
    getTooltip ⟨some ⟨some ⟨some "Ethiopia", some "ETH"⟩⟩⟩ =
      pickNAME ⟨some ⟨some ⟨some "Ethiopia", some "ETH"⟩⟩⟩ ∧
    onClickEvent ⟨some ⟨some ⟨some "Ethiopia", some "ETH"⟩⟩⟩ =
      pickISO ⟨some ⟨some ⟨some "Ethiopia", some "ETH"⟩⟩⟩ :=
  ⟨(interaction_resolver_contract _).1 rfl,
   (interaction_resolver_contract _).2.2.2.1 rfl⟩

/-- C7: composition is deterministic — two invocations with equal inputs
produce element-wise equal descriptor lists. -/
theorem compose_deterministic (t₁ t₂ : LayerToggleState) (b₁ b₂ : AgentResults)
    (s₁ s₂ : Option String) (g₁ g₂ : Option GeoJSONFeatureCollection)
    (p₁ p₂ : ℚ) (ht : t₁ = t₂) (hb : b₁ = b₂) (hs : s₁ = s₂) (hg : g₁ = g₂)
    (hp : p₁ = p₂) :
    ∀ n : Nat, (layers t₁ b₁ s₁ g₁ p₁)[n]? = (layers t₂ b₂ s₂ g₂ p₂)[n]? := by
  subst ht hb hs hg hp
  intro n
  rfl

/-- Witness for C7 at a concrete input. -/
theorem compose_deterministic_witness :
    (layers allToggles fullResults none (some sampleGeo) 1)[0]? =
      (layers allToggles fullResults none (some sampleGeo) 1)[0]? :=
  compose_deterministic allToggles allToggles fullResults fullResults none none
    (some sampleGeo) (some sampleGeo) 1 1 rfl rfl rfl rfl rfl 0

/-- C8: two compositions differing only in the selection state produce
descriptor lists that agree everywhere once the choropleth highlight
parameter is erased — so at most the choropleth descriptor's highlight
differs, and every other descriptor is unchanged. -/
theorem selection_only_affects_choropleth_highlight (t : LayerToggleState)
    (b : AgentResults) (g : Option GeoJSONFeatureCollection) (p : ℚ)
    (sel₁ sel₂ : Option String) :
    (layers t b sel₁ g p).map stripSelection =
      (layers t b sel₂ g p).map stripSelection := by
  unfold layers
  simp only [List.map_append, map_pushWhen, map_pushWhenSome, map_pushWhenSome₂,
    Function.comp]
  simp [stripSelection, createChoroplethLayer, createConflictLayer,
    createFoodDesertLayer, createInfrastructureLayer, createTradeArcLayer,
    createDisplacementArcLayer, createHeatmapLayer]
  exact pushWhenSome_ext _ _ _ _ (fun _ => rfl)

/-- C9 counterexample: recomposition after flipping only the conflict toggle
(unrelated to the heatmap kind, with the heatmap's own inputs unchanged)
re-executes the memoized body and re-invokes the heatmap builder, so the
heatmap descriptor in the new list is freshly constructed rather than being
the previous object. -/
theorem memo_heatmap_rebuilt_counterexample :
    (useMemoLayers exDepsToggled (some (exDepsBase, composeFromDeps exDepsBase))).2 =
      true ∧
    LayerKind.heatmap ∈
      invokedBuilders exDepsToggled (some (exDepsBase, composeFromDeps exDepsBase)) := by
  have hne : ¬ exDepsToggled = exDepsBase := by decide
  constructor
  · simp [useMemoLayers, hne]
  · simp only [invokedBuilders, if_neg hne]
    decide

/-- C9 amended: the memoization is at whole-list granularity — with all
dependencies unchanged nothing is recomputed and no builder runs, but any
dependency change (a toggle unrelated to the heatmap included) re-executes
the body and re-invokes the builder of every included kind, the heatmap's
included; the fresh heatmap descriptor is structurally equal to the previous
one whenever the heatmap toggle and the result bundle are unchanged. -/
theorem memo_whole_list_granularity (d₁ d₂ : ComposeDeps)
    (v : List LayerDescriptor)
    (hb : d₂.agentResults = d₁.agentResults)
    (hh : d₂.layerToggles.heatmap = d₁.layerToggles.heatmap)
    (hne : ¬ d₂ = d₁) :
    useMemoLayers d₁ (some (d₁, v)) = (v, false) ∧
    invokedBuilders d₁ (some (d₁, v)) = [] ∧
    (useMemoLayers d₂ (some (d₁, v))).2 = true ∧
    invokedBuilders d₂ (some (d₁, v)) = (composeFromDeps d₂).map kindOf ∧
    (composeFromDeps d₂).filter (fun x => kindOf x == LayerKind.heatmap) =
      (composeFromDeps d₁).filter (fun x => kindOf x == LayerKind.heatmap) := by
  refine ⟨by simp [useMemoLayers], by simp [invokedBuilders], by simp [useMemoLayers, hne],
    by simp [invokedBuilders, hne], ?_⟩
  unfold composeFromDeps
  rw [layers_filter_heatmap, layers_filter_heatmap, hb, hh]

/-- Witness for C9 amended at the concrete toggled dependencies. -/
theorem memo_whole_list_granularity_witness :
    useMemoLayers exDepsBase (some (exDepsBase, [])) = ([], false) ∧
    invokedBuilders exDepsBase (some (exDepsBase, [])) = [] ∧
    (useMemoLayers exDepsToggled (some (exDepsBase, []))).2 = true ∧
    invokedBuilders exDepsToggled (some (exDepsBase, [])) =
      (composeFromDeps exDepsToggled).map kindOf ∧
    (composeFromDeps exDepsToggled).filter (fun x => kindOf x == LayerKind.heatmap) =
      (composeFromDeps exDepsBase).filter (fun x => kindOf x == LayerKind.heatmap) :=
  memo_whole_list_granularity exDepsBase exDepsToggled [] rfl rfl (by decide)

/-- C10: the heatmap guard's bundle-presence check is the JS truthiness of an
always-provided object, hence always satisfied; the heatmap kind is included
exactly when its toggle is true, for every bundle, and with the toggle true
the descriptor built from the bundle — the all-absent bundle included — is in
the list. -/
theorem heatmap_included_iff_toggle (t : LayerToggleState) (b : AgentResults)
    (sel : Option String) (g : Option GeoJSONFeatureCollection) (p : ℚ) :
    agentResultsTruthy b = true ∧
    (LayerKind.heatmap ∈ (layers t b sel g p).map kindOf ↔ t.heatmap = true) ∧
    (t.heatmap = true → createHeatmapLayer b ∈ layers t b sel g p) := by
  refine ⟨rfl, ?_, ?_⟩
  · rw [layers_map_kindOf]
    have h := (mem_guardedKinds (t.choropleth && g.isSome)
      (t.conflict && b.geopolitics.isSome)
      (t.foodDesert && g.isSome && b.food_supply.isSome)
      (t.infrastructure && b.infrastructure.isSome)
      (t.tradeArcs && (b.economy.isSome || b.food_supply.isSome))
      (t.displacementArcs && b.civilian_impact.isSome)
      (t.heatmap && agentResultsTruthy b)).2.2.2.2.2.2
    rw [h]
    simp [agentResultsTruthy]
  · intro hh
    rw [mem_layers_iff]
    exact ⟨hh, rfl⟩

/-- Witness for C10 at the all-absent bundle with the heatmap toggle on. -/
theorem heatmap_included_iff_toggle_witness :
    createHeatmapLayer emptyResults ∈ layers allToggles emptyResults none none 1 :=
  (heatmap_included_iff_toggle allToggles emptyResults none none 1).2.2 rfl

end Vantage
